import Mathlib

/-!
Shallow embedding of the generic DEC vt102 terminal emulator backend
(vt102-backend-generic.c) and verification of its screen-state claims.

Modelling conventions:
  * C `int` fields and arguments become `Int` (no reachable state makes any
    of the arithmetic here overflow a 32-bit int in the states the theorems
    quantify over, and overflowing signed arithmetic in C is undefined).
  * The flat byte buffers `chbuf` / `grbuf` (of `unsigned char`) become
    total functions `Int → Nat` from byte offsets to byte values; the
    per-line refresh flag buffer becomes `Int → Bool`.  `malloc`ed
    (uninitialized) buffers are passed in as explicit parameters, so
    theorems quantify over the arbitrary initial contents.
  * `memset` / `memmove` / `memcpy` become pointwise function updates over
    the written ranges; `memmove` reads from the original buffer, matching
    its copy-via-temporary semantics.
  * `display_char` contains two deliberate null-pointer writes guarding
    `cursor_x >= con_width` and `cursor_y >= con_height`; the embedding
    returns `Option TermData`, `none` standing for the crash.
-/

namespace VT102

/-- `memset(buf + off, v, len)` on a byte buffer, as a pointwise update. -/
def memsetN (buf : Int → Nat) (off len : Int) (v : Nat) : Int → Nat :=
  fun i => if off ≤ i ∧ i < off + len then v else buf i

/-- `memset` on a `bool` buffer (one entry per byte, `sizeof(bool) = 1`). -/
def memsetB (buf : Int → Bool) (off len : Int) (v : Bool) : Int → Bool :=
  fun i => if off ≤ i ∧ i < off + len then v else buf i

/-- `memmove(buf + dst, buf + src, len)` within a single buffer; reads come
from the original buffer, as guaranteed by `memmove`. -/
def memmoveN (buf : Int → Nat) (dst src len : Int) : Int → Nat :=
  fun i => if dst ≤ i ∧ i < dst + len then buf (i - dst + src) else buf i

/-- `memcpy(dst + doff, src + soff, len)` between two distinct buffers. -/
def memcpy2 (dst : Int → Nat) (doff : Int) (src : Int → Nat)
    (soff len : Int) : Int → Nat :=
  fun i => if doff ≤ i ∧ i < doff + len then src (i - doff + soff) else dst i

/-- minimum terminal window width (columns), from vt102-backend-generic.h -/
def NR_MIN_VT102_SCREEN_COLUMNS : Int := 10

/-- minimum terminal window height (rows), from vt102-backend-generic.h -/
def NR_MIN_VT102_SCREEN_ROWS : Int := 2

/-- the `struct term_data` backend state (the unused `generic_ptr` hook
pointer is omitted; the backend never reads or writes it). -/
structure TermData where
  cur_fg_gc_idx : Int
  cur_bg_gc_idx : Int
  con_width : Int
  con_height : Int
  chbuf : Int → Nat
  grbuf : Int → Nat
  cursor_x : Int
  cursor_y : Int
  margin_top : Int
  margin_bottom : Int
  must_refresh : Bool
  must_refresh_line_buf : Int → Bool

/-- the packed graphic-rendition byte `cur_fg_gc_idx | (cur_bg_gc_idx << 4)`
stored into the `unsigned char` buffer `grbuf`; every write into these two
`int` fields keeps them in `0..7`, where the C expression agrees with this
nonnegative bitwise form. -/
def rendition_byte (td : TermData) : Nat :=
  (td.cur_fg_gc_idx.toNat ||| (td.cur_bg_gc_idx.toNat <<< 4)) % 256

/-- `move_cursor_relative` from vt102-backend-generic.c: add the offsets,
then clamp `cursor_x` into `[0, con_width-1]` and `cursor_y` into
`[margin_top, margin_bottom]`, each clamp applied in source order. -/
def move_cursor_relative (td : TermData) (dx dy : Int) : TermData :=
  let x := td.cursor_x + dx
  let y := td.cursor_y + dy
  let x := if x < 0 then 0 else x
  let y := if y < td.margin_top then td.margin_top else y
  let x := if td.con_width ≤ x then td.con_width - 1 else x
  let y := if td.margin_bottom < y then td.margin_bottom else y
  { td with cursor_x := x, cursor_y := y, must_refresh := true }

/-- `move_cursor_absolute`: set the cursor, then clamp exactly as the
source does (`x < 0`, `y < margin_top`, `x > con_width - 1`,
`y > margin_bottom`). -/
def move_cursor_absolute (td : TermData) (x0 y0 : Int) : TermData :=
  let x := x0
  let y := y0
  let x := if x < 0 then 0 else x
  let y := if y < td.margin_top then td.margin_top else y
  let x := if td.con_width - 1 < x then td.con_width - 1 else x
  let y := if td.margin_bottom < y then td.margin_bottom else y
  { td with cursor_x := x, cursor_y := y, must_refresh := true }

/-- `move_cursor_column_absolute`: `move_cursor_absolute(x, cursor_y)`. -/
def move_cursor_column_absolute (td : TermData) (x : Int) : TermData :=
  move_cursor_absolute td x td.cursor_y

/-- `handle_linefeed`: when the cursor sits on `margin_bottom`, scroll the
scrolling region up one row (vacated bottom row filled with `' '` characters
and rendition `0`, every region row marked dirty); then move the cursor one
row down through `move_cursor_absolute`. -/
def handle_linefeed (td : TermData) : TermData :=
  let td :=
    if td.cursor_y = td.margin_bottom then
      let w := td.con_width
      { td with
        chbuf := memsetN
          (memmoveN td.chbuf (td.margin_top * w) ((td.margin_top + 1) * w)
            ((td.margin_bottom - td.margin_top) * w))
          (td.margin_bottom * w) w 32,
        grbuf := memsetN
          (memmoveN td.grbuf (td.margin_top * w) ((td.margin_top + 1) * w)
            ((td.margin_bottom - td.margin_top) * w))
          (td.margin_bottom * w) w 0,
        must_refresh_line_buf := memsetB td.must_refresh_line_buf
          td.margin_top (td.margin_bottom - td.margin_top + 1) true }
    else td
  let td := move_cursor_absolute td td.cursor_x (td.cursor_y + 1)
  { td with must_refresh := true }

/-- the body of `display_char` past its two null-pointer guards: store the
character byte and the packed rendition byte at the cursor cell, mark the
line dirty, advance the cursor, wrapping to the next line at the right edge
and delegating to `handle_linefeed` when the cursor falls off the bottom. -/
def display_char_body (td : TermData) (ch : Nat) : TermData :=
  let cx := td.cursor_x
  let cy := td.cursor_y
  let w := td.con_width
  let td1 : TermData :=
    { td with
      chbuf := fun i => if i = cy * w + cx then ch % 256 else td.chbuf i,
      grbuf := fun i => if i = cy * w + cx then rendition_byte td else td.grbuf i,
      must_refresh_line_buf :=
        fun i => if i = cy then true else td.must_refresh_line_buf i,
      cursor_x := td.cursor_x + 1 }
  let td2 : TermData :=
    if td1.cursor_x = td1.con_width then
      let td1 := { td1 with cursor_x := 0, cursor_y := td1.cursor_y + 1 }
      if td1.cursor_y = td1.con_height then
        handle_linefeed { td1 with cursor_y := td1.cursor_y - 1 }
      else
        { td1 with must_refresh_line_buf :=
            fun i => if i = cy + 1 then true else td1.must_refresh_line_buf i }
    else td1
  { td2 with must_refresh := true }

/-- `display_char`: the two branches `cursor_x >= con_width` and
`cursor_y >= con_height` each execute `*(int *)0 = 0`; modelled as `none`. -/
def display_char (td : TermData) (ch : Nat) : Option TermData :=
  if td.con_width ≤ td.cursor_x then none
  else if td.con_height ≤ td.cursor_y then none
  else some (display_char_body td ch)

/-- the tab fill count `((cursor_x + 8) & ~7) - cursor_x` of
`handle_horiz_tab`, written over `Nat`; for the maintained `0 ≤ cursor_x`
the bit-clearing form equals rounding `cursor_x + 8` down to a multiple
of 8. -/
def tab_fill_count (x : Int) : Nat :=
  (x.toNat + 8) / 8 * 8 - x.toNat

/-- the `while (i--) display_char(' ')` loop of `handle_horiz_tab`,
propagating a crash of any iteration. -/
def displayN : Nat → TermData → Option TermData
  | 0, td => some td
  | n + 1, td => (display_char td 32).bind (displayN n)

/-- `handle_horiz_tab`: write spaces through `display_char` until the
cursor column reaches the next multiple of 8. -/
def handle_horiz_tab (td : TermData) : Option TermData :=
  (displayN (tab_fill_count td.cursor_x) td).map
    fun td => { td with must_refresh := true }

/-- `handle_backspace`: `move_cursor_relative(-1, 0)`. -/
def handle_backspace (td : TermData) : TermData :=
  let td := move_cursor_relative td (-1) 0
  { td with must_refresh := true }

/-- `handle_carriage_return`: `move_cursor_absolute(0, cursor_y)`. -/
def handle_carriage_return (td : TermData) : TermData :=
  let td := move_cursor_absolute td 0 td.cursor_y
  { td with must_refresh := true }

/-- `erase_line_at_cursor`: blank the whole row `cursor_y`. -/
def erase_line_at_cursor (td : TermData) : TermData :=
  { td with
    chbuf := memsetN td.chbuf (td.cursor_y * td.con_width) td.con_width 32,
    grbuf := memsetN td.grbuf (td.cursor_y * td.con_width) td.con_width 0,
    must_refresh_line_buf :=
      fun i => if i = td.cursor_y then true else td.must_refresh_line_buf i,
    must_refresh := true }

/-- `erase_line_from_beginning_to_cursor`: blank columns `0..cursor_x` of
row `cursor_y` (length `cursor_x + 1`). -/
def erase_line_from_beginning_to_cursor (td : TermData) : TermData :=
  { td with
    chbuf := memsetN td.chbuf (td.cursor_y * td.con_width) (td.cursor_x + 1) 32,
    grbuf := memsetN td.grbuf (td.cursor_y * td.con_width) (td.cursor_x + 1) 0,
    must_refresh_line_buf :=
      fun i => if i = td.cursor_y then true else td.must_refresh_line_buf i,
    must_refresh := true }

/-- `erase_line_from_cursor_to_end`: blank columns `cursor_x..con_width-1`
of row `cursor_y`. -/
def erase_line_from_cursor_to_end (td : TermData) : TermData :=
  { td with
    chbuf := memsetN td.chbuf (td.cursor_y * td.con_width + td.cursor_x)
      (td.con_width - td.cursor_x) 32,
    grbuf := memsetN td.grbuf (td.cursor_y * td.con_width + td.cursor_x)
      (td.con_width - td.cursor_x) 0,
    must_refresh_line_buf :=
      fun i => if i = td.cursor_y then true else td.must_refresh_line_buf i,
    must_refresh := true }

/-- `erase_display`: blank the whole screen and mark every line dirty. -/
def erase_display (td : TermData) : TermData :=
  { td with
    chbuf := memsetN td.chbuf 0 (td.con_height * td.con_width) 32,
    grbuf := memsetN td.grbuf 0 (td.con_height * td.con_width) 0,
    must_refresh_line_buf := memsetB td.must_refresh_line_buf 0 td.con_height true,
    must_refresh := true }

/-- `erase_display_from_beginning_to_cursor`: blank offsets
`0..cursor_y*con_width+cursor_x`, then additionally run
`erase_line_from_beginning_to_cursor` as the source does. -/
def erase_display_from_beginning_to_cursor (td : TermData) : TermData :=
  let td :=
    { td with
      chbuf := memsetN td.chbuf 0 (td.cursor_y * td.con_width + td.cursor_x + 1) 32,
      grbuf := memsetN td.grbuf 0 (td.cursor_y * td.con_width + td.cursor_x + 1) 0,
      must_refresh_line_buf := memsetB td.must_refresh_line_buf 0 (td.cursor_y + 1) true }
  let td := erase_line_from_beginning_to_cursor td
  { td with must_refresh := true }

/-- `erase_display_from_cursor_to_end`: blank offsets
`cursor_y*con_width+cursor_x .. con_width*con_height - 1`, then additionally
run `erase_line_from_cursor_to_end` as the source does. -/
def erase_display_from_cursor_to_end (td : TermData) : TermData :=
  let td :=
    { td with
      chbuf := memsetN td.chbuf (td.cursor_y * td.con_width + td.cursor_x)
        (td.con_width * td.con_height - (td.cursor_y * td.con_width + td.cursor_x)) 32,
      grbuf := memsetN td.grbuf (td.cursor_y * td.con_width + td.cursor_x)
        (td.con_width * td.con_height - (td.cursor_y * td.con_width + td.cursor_x)) 0,
      must_refresh_line_buf := memsetB td.must_refresh_line_buf td.cursor_y
        (td.con_height - td.cursor_y) true }
  let td := erase_line_from_cursor_to_end td
  { td with must_refresh := true }

/-- `set_top_and_bottom_margins`: normalize the two arguments exactly as
the source does, then store them; nothing else in the state is touched. -/
def set_top_and_bottom_margins (td : TermData) (top bottom : Int) : TermData :=
  let top := if top < 0 then 0 else top
  let top := if td.con_height - 2 ≤ top then td.con_height - 2 else top
  let bottom := if bottom ≤ top then top + 1 else bottom
  let bottom := if td.con_height - 1 ≤ bottom then td.con_height - 1 else bottom
  { td with margin_top := top, margin_bottom := bottom }

/-- `insert_lines_at_cursor`: no-op when the cursor is outside the
scrolling region; otherwise shift rows `cursor_y..` down by `nr_lines`
within the region (when the destination stays inside it), blank the opened
rows, and mark the rows `cursor_y..margin_bottom` dirty. -/
def insert_lines_at_cursor (td : TermData) (nr_lines : Int) : TermData :=
  if ¬ (td.margin_top ≤ td.cursor_y ∧ td.cursor_y ≤ td.margin_bottom) then td
  else
    let w := td.con_width
    let i := td.cursor_y + nr_lines
    let p :
        Int × (Int → Nat) × (Int → Nat) :=
      if td.margin_bottom < i then
        (td.margin_bottom - td.cursor_y + 1, td.chbuf, td.grbuf)
      else
        (nr_lines,
          memmoveN td.chbuf (i * w) (td.cursor_y * w) ((td.margin_bottom - i + 1) * w),
          memmoveN td.grbuf (i * w) (td.cursor_y * w) ((td.margin_bottom - i + 1) * w))
    { td with
      chbuf := memsetN p.2.1 (td.cursor_y * w) (p.1 * w) 32,
      grbuf := memsetN p.2.2 (td.cursor_y * w) (p.1 * w) 0,
      must_refresh_line_buf := memsetB td.must_refresh_line_buf td.cursor_y
        (td.margin_bottom - td.cursor_y + 1) true,
      must_refresh := true }

/-- `delete_lines_at_cursor`: no-op when the cursor is outside the
scrolling region; otherwise shift rows `cursor_y + nr_lines ..` up within
the region (when the source stays inside it), blank the vacated bottom
rows, and mark the rows `cursor_y..margin_bottom` dirty. -/
def delete_lines_at_cursor (td : TermData) (nr_lines : Int) : TermData :=
  if ¬ (td.margin_top ≤ td.cursor_y ∧ td.cursor_y ≤ td.margin_bottom) then td
  else
    let w := td.con_width
    let i := td.cursor_y + nr_lines
    let p :
        Int × (Int → Nat) × (Int → Nat) :=
      if td.margin_bottom < i then
        (td.margin_bottom - td.cursor_y + 1, td.chbuf, td.grbuf)
      else
        (nr_lines,
          memmoveN td.chbuf (td.cursor_y * w) (i * w) ((td.margin_bottom - i + 1) * w),
          memmoveN td.grbuf (td.cursor_y * w) (i * w) ((td.margin_bottom - i + 1) * w))
    { td with
      chbuf := memsetN p.2.1 ((td.margin_bottom - p.1 + 1) * w) (p.1 * w) 32,
      grbuf := memsetN p.2.2 ((td.margin_bottom - p.1 + 1) * w) (p.1 * w) 0,
      must_refresh_line_buf := memsetB td.must_refresh_line_buf td.cursor_y
        (td.margin_bottom - td.cursor_y + 1) true,
      must_refresh := true }

/-- `delete_characters_at_cursor`: return at once when
`nr_characters <= 0`; otherwise clamp the count to `con_width - cursor_x`,
shift the characters of row `cursor_y` left over `chbuf` only (the source
never touches `grbuf` here) and fill the rightmost cells of the row with
spaces. -/
def delete_characters_at_cursor (td : TermData) (nr_characters : Int) : TermData :=
  if nr_characters ≤ 0 then td
  else
    let i := td.con_width - td.cursor_x
    let n := if i < nr_characters then i else nr_characters
    let w := td.con_width
    { td with
      chbuf := memsetN
        (memmoveN td.chbuf (td.cursor_y * w + td.cursor_x)
          (td.cursor_y * w + td.cursor_x + n) (i - n))
        ((td.cursor_y + 1) * w - n) n 32,
      must_refresh_line_buf :=
        fun j => if j = td.cursor_y then true else td.must_refresh_line_buf j,
      must_refresh := true }

/-- `cursor_reverse_index`: when the cursor sits on `margin_top`, scroll
the region down one row, filling the vacated top row with `' '` bytes in
BOTH buffers (the source memsets `grbuf` with `' '`, not `0`) and marking
the region dirty; then the source calls
`move_cursor_relative(tdata, tdata->cursor_x, -1)`, passing the current
column as the horizontal DELTA. -/
def cursor_reverse_index (td : TermData) : TermData :=
  let td :=
    if td.cursor_y = td.margin_top then
      let w := td.con_width
      { td with
        chbuf := memsetN
          (memmoveN td.chbuf ((td.margin_top + 1) * w) (td.margin_top * w)
            ((td.margin_bottom - td.margin_top) * w))
          (td.margin_top * w) w 32,
        grbuf := memsetN
          (memmoveN td.grbuf ((td.margin_top + 1) * w) (td.margin_top * w)
            ((td.margin_bottom - td.margin_top) * w))
          (td.margin_top * w) w 32,
        must_refresh_line_buf := memsetB td.must_refresh_line_buf td.margin_top
          (td.margin_bottom - td.margin_top + 1) true }
    else td
  let td := move_cursor_relative td td.cursor_x (-1)
  { td with must_refresh := true }

/-- one parameter of `select_graphic_rendition`; the `case 7` swap falls
through into `default`, which only prints a diagnostic. -/
def sgr_step (td : TermData) (p : Nat) : TermData :=
  if p = 0 then { td with cur_fg_gc_idx := 7, cur_bg_gc_idx := 0 }
  else if 30 ≤ p ∧ p ≤ 37 then { td with cur_fg_gc_idx := (p : Int) - 30 }
  else if p = 39 then { td with cur_fg_gc_idx := 7 }
  else if 40 ≤ p ∧ p ≤ 47 then { td with cur_bg_gc_idx := (p : Int) - 40 }
  else if p = 49 then { td with cur_bg_gc_idx := 0 }
  else if p = 7 then
    { td with cur_bg_gc_idx := td.cur_fg_gc_idx, cur_fg_gc_idx := td.cur_bg_gc_idx }
  else td

/-- `select_graphic_rendition`: process the `unsigned int` parameters in
order. -/
def select_graphic_rendition (td : TermData) (cmd_params : List Nat) : TermData :=
  cmd_params.foldl sgr_step td

/-- `init_vt102_generic_backend`: clamp the dimensions up to the minima,
fill `chbuf` with `'E'` (byte 69) and `grbuf` with `0` over the
`width * height` screen, set every per-line refresh flag, home the cursor,
open the margins to the full screen and select rendition `fg=7, bg=0`.
The three buffer parameters stand for the arbitrary contents `malloc`
returns. -/
def init_vt102_generic_backend (width height : Int)
    (ch0 gr0 : Int → Nat) (mr0 : Int → Bool) : TermData :=
  let width := if width < NR_MIN_VT102_SCREEN_COLUMNS then NR_MIN_VT102_SCREEN_COLUMNS else width
  let height := if height < NR_MIN_VT102_SCREEN_ROWS then NR_MIN_VT102_SCREEN_ROWS else height
  { cur_fg_gc_idx := 7
    cur_bg_gc_idx := 0
    con_width := width
    con_height := height
    chbuf := memsetN ch0 0 (width * height) 69
    grbuf := memsetN gr0 0 (width * height) 0
    cursor_x := 0
    cursor_y := 0
    margin_top := 0
    margin_bottom := height - 1
    must_refresh := true
    must_refresh_line_buf := memsetB mr0 0 height true }

/-- the row-copy loop of `vt102_generic_backend_resize_buffers`:
`for (i = 0; i < h; i++) memcpy(dst + i*nw, src + i*ow, w)`. -/
def copy_rows (dst src : Int → Nat) (nw ow w : Int) : Nat → (Int → Nat)
  | 0 => dst
  | n + 1 => memcpy2 (copy_rows dst src nw ow w n) ((n : Int) * nw) src ((n : Int) * ow) w

/-- the `new_width` sanity clamp at the top of
`vt102_generic_backend_resize_buffers`. -/
def resize_clamped_width (new_width : Int) : Int :=
  if new_width < NR_MIN_VT102_SCREEN_COLUMNS then NR_MIN_VT102_SCREEN_COLUMNS else new_width

/-- the `new_height` sanity clamp at the top of
`vt102_generic_backend_resize_buffers`. -/
def resize_clamped_height (new_height : Int) : Int :=
  if new_height < NR_MIN_VT102_SCREEN_ROWS then NR_MIN_VT102_SCREEN_ROWS else new_height

/-- the surviving column count `w` of `vt102_generic_backend_resize_buffers`:
the smaller of the old and the (clamped) new width. -/
def copy_width (td : TermData) (new_width : Int) : Int :=
  if new_width < td.con_width then new_width else td.con_width

/-- the surviving row count `h` of `vt102_generic_backend_resize_buffers`:
the smaller of the old and the (clamped) new height. -/
def copy_height (td : TermData) (new_height : Int) : Int :=
  if new_height < td.con_height then new_height else td.con_height

/-- `vt102_generic_backend_resize_buffers`: clamp the new dimensions up to
the minima, build fresh space-filled buffers, copy the surviving top-left
subscreen row by row, mark every line dirty, clamp the cursor into the new
screen and open the margins to the full new screen.  The two buffer
parameters stand for the freshly `malloc`ed arrays. -/
def vt102_generic_backend_resize_buffers (td : TermData)
    (new_width new_height : Int) (ch0 gr0 : Int → Nat) : TermData :=
  let new_width := resize_clamped_width new_width
  let new_height := resize_clamped_height new_height
  let chbuf := memsetN ch0 0 (new_width * new_height) 32
  let grbuf := memsetN gr0 0 (new_width * new_height) 0
  let w := copy_width td new_width
  let h := copy_height td new_height
  let chbuf := copy_rows chbuf td.chbuf new_width td.con_width w h.toNat
  let grbuf := copy_rows grbuf td.grbuf new_width td.con_width w h.toNat
  let cursor_x := if new_width ≤ td.cursor_x then new_width - 1 else td.cursor_x
  let cursor_y := if new_height ≤ td.cursor_y then new_height - 1 else td.cursor_y
  { td with
    chbuf := chbuf
    grbuf := grbuf
    must_refresh_line_buf := memsetB td.must_refresh_line_buf 0 new_height true
    must_refresh := true
    con_width := new_width
    con_height := new_height
    cursor_x := cursor_x
    cursor_y := cursor_y
    margin_top := 0
    margin_bottom := new_height - 1 }

/-- the dimension-and-margin part of the state invariant: the screen is at
least the minimum size and the scrolling region is a well-formed nonempty
row range inside it. -/
def DimsOk (td : TermData) : Prop :=
  NR_MIN_VT102_SCREEN_COLUMNS ≤ td.con_width ∧
  NR_MIN_VT102_SCREEN_ROWS ≤ td.con_height ∧
  0 ≤ td.margin_top ∧ td.margin_top < td.margin_bottom ∧
  td.margin_bottom ≤ td.con_height - 1

/-- the full state invariant: well-formed dimensions and margins, and a
cursor strictly inside the screen. -/
def Inv (td : TermData) : Prop :=
  DimsOk td ∧
  0 ≤ td.cursor_x ∧ td.cursor_x < td.con_width ∧
  0 ≤ td.cursor_y ∧ td.cursor_y < td.con_height

/-- the states reachable from `init_vt102_generic_backend` by any sequence
of backend operations, with arbitrary integer arguments; for the fallible
display paths only a non-crashing run yields a successor state. -/
inductive Reachable : TermData → Prop where
  | init : ∀ w h ch0 gr0 mr0,
      Reachable (init_vt102_generic_backend w h ch0 gr0 mr0)
  | display_step : ∀ td ch td2, Reachable td →
      display_char td ch = some td2 → Reachable td2
  | move_rel : ∀ td dx dy, Reachable td → Reachable (move_cursor_relative td dx dy)
  | move_abs : ∀ td x y, Reachable td → Reachable (move_cursor_absolute td x y)
  | move_col : ∀ td x, Reachable td → Reachable (move_cursor_column_absolute td x)
  | linefeed : ∀ td, Reachable td → Reachable (handle_linefeed td)
  | backspace : ∀ td, Reachable td → Reachable (handle_backspace td)
  | horiz_tab_step : ∀ td td2, Reachable td →
      handle_horiz_tab td = some td2 → Reachable td2
  | carriage_return : ∀ td, Reachable td → Reachable (handle_carriage_return td)
  | erase_l : ∀ td, Reachable td → Reachable (erase_line_at_cursor td)
  | erase_lb : ∀ td, Reachable td → Reachable (erase_line_from_beginning_to_cursor td)
  | erase_le : ∀ td, Reachable td → Reachable (erase_line_from_cursor_to_end td)
  | erase_d : ∀ td, Reachable td → Reachable (erase_display td)
  | erase_db : ∀ td, Reachable td → Reachable (erase_display_from_beginning_to_cursor td)
  | erase_de : ∀ td, Reachable td → Reachable (erase_display_from_cursor_to_end td)
  | set_margins : ∀ td top bottom, Reachable td →
      Reachable (set_top_and_bottom_margins td top bottom)
  | insert_lines : ∀ td n, Reachable td → Reachable (insert_lines_at_cursor td n)
  | delete_lines : ∀ td n, Reachable td → Reachable (delete_lines_at_cursor td n)
  | delete_chars : ∀ td n, Reachable td → Reachable (delete_characters_at_cursor td n)
  | reverse_index : ∀ td, Reachable td → Reachable (cursor_reverse_index td)
  | sgr : ∀ td ps, Reachable td → Reachable (select_graphic_rendition td ps)
  | resize : ∀ td w h ch0 gr0, Reachable td →
      Reachable (vt102_generic_backend_resize_buffers td w h ch0 gr0)

lemma inv_init (w h : Int) (ch0 gr0 : Int → Nat) (mr0 : Int → Bool) :
    Inv (init_vt102_generic_backend w h ch0 gr0 mr0) := by
  simp only [Inv, DimsOk, init_vt102_generic_backend,
    NR_MIN_VT102_SCREEN_COLUMNS, NR_MIN_VT102_SCREEN_ROWS]
  split <;> split <;> simp <;> omega

lemma inv_move_cursor_absolute (td : TermData) (x y : Int) (h : DimsOk td) :
    Inv (move_cursor_absolute td x y) := by
  obtain ⟨hw, hh, hm0, hm1, hm2⟩ := h
  simp only [Inv, DimsOk, move_cursor_absolute,
    NR_MIN_VT102_SCREEN_COLUMNS, NR_MIN_VT102_SCREEN_ROWS] at *
  refine ⟨⟨?_, ?_, ?_, ?_, ?_⟩, ?_, ?_, ?_, ?_⟩ <;> (try split_ifs) <;> omega

lemma inv_move_cursor_relative (td : TermData) (dx dy : Int) (h : DimsOk td) :
    Inv (move_cursor_relative td dx dy) := by
  obtain ⟨hw, hh, hm0, hm1, hm2⟩ := h
  simp only [Inv, DimsOk, move_cursor_relative,
    NR_MIN_VT102_SCREEN_COLUMNS, NR_MIN_VT102_SCREEN_ROWS] at *
  refine ⟨⟨?_, ?_, ?_, ?_, ?_⟩, ?_, ?_, ?_, ?_⟩ <;> (try split_ifs) <;> omega

lemma inv_move_cursor_column_absolute (td : TermData) (x : Int) (h : DimsOk td) :
    Inv (move_cursor_column_absolute td x) :=
  inv_move_cursor_absolute td x td.cursor_y h

lemma inv_handle_linefeed (td : TermData) (h : DimsOk td) :
    Inv (handle_linefeed td) := by
  unfold handle_linefeed
  by_cases hc : td.cursor_y = td.margin_bottom <;>
    simp only [hc, if_pos, if_neg, if_true, if_false, reduceIte] <;>
    exact inv_move_cursor_absolute _ _ _ h

lemma display_char_eq (td : TermData) (ch : Nat) (h : Inv td) :
    display_char td ch = some (display_char_body td ch) := by
  obtain ⟨⟨hw, hh, hm0, hm1, hm2⟩, hx0, hxw, hy0, hyh⟩ := h
  unfold display_char
  rw [if_neg (by omega), if_neg (by omega)]

lemma inv_display_char_body (td : TermData) (ch : Nat) (h : Inv td) :
    Inv (display_char_body td ch) := by
  obtain ⟨⟨hw, hh, hm0, hm1, hm2⟩, hx0, hxw, hy0, hyh⟩ := h
  simp only [NR_MIN_VT102_SCREEN_COLUMNS, NR_MIN_VT102_SCREEN_ROWS] at hw hh
  unfold display_char_body
  dsimp only
  split_ifs with h1 h2
  · exact inv_handle_linefeed _ ⟨hw, hh, hm0, hm1, hm2⟩
  · have h2a : ¬ (td.cursor_y + 1 = td.con_height) := h2
    exact ⟨⟨hw, hh, hm0, hm1, hm2⟩, show (0 : Int) ≤ 0 by omega,
      show (0 : Int) < td.con_width by omega,
      show (0 : Int) ≤ td.cursor_y + 1 by omega,
      show td.cursor_y + 1 < td.con_height by omega⟩
  · have h1a : ¬ (td.cursor_x + 1 = td.con_width) := h1
    exact ⟨⟨hw, hh, hm0, hm1, hm2⟩, show (0 : Int) ≤ td.cursor_x + 1 by omega,
      show td.cursor_x + 1 < td.con_width by omega,
      show (0 : Int) ≤ td.cursor_y by omega,
      show td.cursor_y < td.con_height by omega⟩

lemma inv_display_char (td : TermData) (ch : Nat) (td2 : TermData)
    (h : Inv td) (he : display_char td ch = some td2) : Inv td2 := by
  rw [display_char_eq td ch h] at he
  cases he
  exact inv_display_char_body td ch h

lemma displayN_some (n : Nat) (td : TermData) (h : Inv td) :
    ∃ td2, displayN n td = some td2 ∧ Inv td2 := by
  induction n generalizing td with
  | zero => exact ⟨td, rfl, h⟩
  | succ n ih =>
    obtain ⟨td2, he2, h2⟩ := ih (display_char_body td 32) (inv_display_char_body td 32 h)
    exact ⟨td2, by unfold displayN; rw [display_char_eq td 32 h]; exact he2, h2⟩

lemma handle_horiz_tab_some (td : TermData) (h : Inv td) :
    ∃ td2, handle_horiz_tab td = some td2 ∧ Inv td2 := by
  obtain ⟨td2, he, h2⟩ := displayN_some (tab_fill_count td.cursor_x) td h
  exact ⟨{ td2 with must_refresh := true },
    by unfold handle_horiz_tab; rw [he]; rfl, h2⟩

lemma inv_handle_backspace (td : TermData) (h : DimsOk td) :
    Inv (handle_backspace td) :=
  inv_move_cursor_relative td (-1) 0 h

lemma inv_handle_carriage_return (td : TermData) (h : DimsOk td) :
    Inv (handle_carriage_return td) :=
  inv_move_cursor_absolute td 0 td.cursor_y h

lemma inv_erase_line_at_cursor (td : TermData) (h : Inv td) :
    Inv (erase_line_at_cursor td) := h

lemma inv_erase_line_from_beginning_to_cursor (td : TermData) (h : Inv td) :
    Inv (erase_line_from_beginning_to_cursor td) := h

lemma inv_erase_line_from_cursor_to_end (td : TermData) (h : Inv td) :
    Inv (erase_line_from_cursor_to_end td) := h

lemma inv_erase_display (td : TermData) (h : Inv td) :
    Inv (erase_display td) := h

lemma inv_erase_display_from_beginning_to_cursor (td : TermData) (h : Inv td) :
    Inv (erase_display_from_beginning_to_cursor td) := h

lemma inv_erase_display_from_cursor_to_end (td : TermData) (h : Inv td) :
    Inv (erase_display_from_cursor_to_end td) := h

lemma inv_set_top_and_bottom_margins (td : TermData) (top bottom : Int)
    (h : Inv td) : Inv (set_top_and_bottom_margins td top bottom) := by
  obtain ⟨⟨hw, hh, hm0, hm1, hm2⟩, hx0, hxw, hy0, hyh⟩ := h
  simp only [Inv, DimsOk, set_top_and_bottom_margins,
    NR_MIN_VT102_SCREEN_COLUMNS, NR_MIN_VT102_SCREEN_ROWS] at *
  refine ⟨⟨?_, ?_, ?_, ?_, ?_⟩, ?_, ?_, ?_, ?_⟩ <;> (try split_ifs) <;> omega

lemma inv_insert_lines_at_cursor (td : TermData) (n : Int) (h : Inv td) :
    Inv (insert_lines_at_cursor td n) := by
  unfold insert_lines_at_cursor
  split_ifs <;> exact h

lemma inv_delete_lines_at_cursor (td : TermData) (n : Int) (h : Inv td) :
    Inv (delete_lines_at_cursor td n) := by
  unfold delete_lines_at_cursor
  split_ifs <;> exact h

lemma inv_delete_characters_at_cursor (td : TermData) (n : Int) (h : Inv td) :
    Inv (delete_characters_at_cursor td n) := by
  unfold delete_characters_at_cursor
  split_ifs <;> exact h

lemma inv_set_must_refresh (td : TermData) (h : Inv td) :
    Inv { td with must_refresh := true } := h

lemma inv_cursor_reverse_index (td : TermData) (h : DimsOk td) :
    Inv (cursor_reverse_index td) := by
  unfold cursor_reverse_index
  dsimp only
  exact inv_set_must_refresh _ (inv_move_cursor_relative _ _ _ (by split <;> exact h))

lemma sgr_step_frame (td : TermData) (p : Nat) :
    (sgr_step td p).con_width = td.con_width ∧
    (sgr_step td p).con_height = td.con_height ∧
    (sgr_step td p).margin_top = td.margin_top ∧
    (sgr_step td p).margin_bottom = td.margin_bottom ∧
    (sgr_step td p).cursor_x = td.cursor_x ∧
    (sgr_step td p).cursor_y = td.cursor_y := by
  unfold sgr_step
  split_ifs <;> exact ⟨rfl, rfl, rfl, rfl, rfl, rfl⟩

lemma inv_select_graphic_rendition (td : TermData) (ps : List Nat)
    (h : Inv td) : Inv (select_graphic_rendition td ps) := by
  induction ps generalizing td with
  | nil => exact h
  | cons p ps ih =>
    refine ih (sgr_step td p) ?_
    obtain ⟨f1, f2, f3, f4, f5, f6⟩ := sgr_step_frame td p
    simp only [Inv, DimsOk] at h ⊢
    rw [f1, f2, f3, f4, f5, f6]
    exact h

lemma inv_resize (td : TermData) (w h : Int) (ch0 gr0 : Int → Nat)
    (hinv : Inv td) : Inv (vt102_generic_backend_resize_buffers td w h ch0 gr0) := by
  obtain ⟨⟨hw, hh, hm0, hm1, hm2⟩, hx0, hxw, hy0, hyh⟩ := hinv
  simp only [Inv, DimsOk, vt102_generic_backend_resize_buffers,
    resize_clamped_width, resize_clamped_height, copy_width, copy_height,
    NR_MIN_VT102_SCREEN_COLUMNS, NR_MIN_VT102_SCREEN_ROWS] at *
  refine ⟨⟨?_, ?_, ?_, ?_, ?_⟩, ?_, ?_, ?_, ?_⟩ <;> (try split_ifs) <;> omega

/-- every reachable state satisfies the full invariant. -/
lemma reachable_inv (td : TermData) (h : Reachable td) : Inv td := by
  induction h with
  | init w h ch0 gr0 mr0 => exact inv_init w h ch0 gr0 mr0
  | display_step td ch td2 _ he ih => exact inv_display_char td ch td2 ih he
  | move_rel td dx dy _ ih => exact inv_move_cursor_relative td dx dy ih.1
  | move_abs td x y _ ih => exact inv_move_cursor_absolute td x y ih.1
  | move_col td x _ ih => exact inv_move_cursor_column_absolute td x ih.1
  | linefeed td _ ih => exact inv_handle_linefeed td ih.1
  | backspace td _ ih => exact inv_handle_backspace td ih.1
  | horiz_tab_step td td2 _ he ih =>
    obtain ⟨td3, he3, h3⟩ := handle_horiz_tab_some td ih
    rw [he3] at he
    cases he
    exact h3
  | carriage_return td _ ih => exact inv_handle_carriage_return td ih.1
  | erase_l td _ ih => exact inv_erase_line_at_cursor td ih
  | erase_lb td _ ih => exact inv_erase_line_from_beginning_to_cursor td ih
  | erase_le td _ ih => exact inv_erase_line_from_cursor_to_end td ih
  | erase_d td _ ih => exact inv_erase_display td ih
  | erase_db td _ ih => exact inv_erase_display_from_beginning_to_cursor td ih
  | erase_de td _ ih => exact inv_erase_display_from_cursor_to_end td ih
  | set_margins td top bottom _ ih => exact inv_set_top_and_bottom_margins td top bottom ih
  | insert_lines td n _ ih => exact inv_insert_lines_at_cursor td n ih
  | delete_lines td n _ ih => exact inv_delete_lines_at_cursor td n ih
  | delete_chars td n _ ih => exact inv_delete_characters_at_cursor td n ih
  | reverse_index td _ ih => exact inv_cursor_reverse_index td ih.1
  | sgr td ps _ ih => exact inv_select_graphic_rendition td ps ih
  | resize td w h ch0 gr0 _ ih => exact inv_resize td w h ch0 gr0 ih

/-- an all-zero byte buffer, standing in for one possible `malloc` result. -/
def zeroBuf : Int → Nat := fun _ => 0

/-- an all-false flag buffer, standing in for one possible `malloc` result. -/
def falseBuf : Int → Bool := fun _ => false

/-- C1: in every state reachable from `init_vt102_generic_backend` by any
sequence of backend operations, `cursor_x < con_width` and
`cursor_y < con_height` hold, so `display_char` (and the tab handler that
invokes it repeatedly) never takes either null-pointer-write branch. -/
theorem display_char_guards_unreachable (td : TermData) (h : Reachable td) :
    td.cursor_x < td.con_width ∧ td.cursor_y < td.con_height ∧
    (∀ ch, (display_char td ch).isSome = true) ∧
    (handle_horiz_tab td).isSome = true := by
  have hi := reachable_inv td h
  obtain ⟨td2, he2, _⟩ := handle_horiz_tab_some td hi
  obtain ⟨⟨hw, hh, hm0, hm1, hm2⟩, hx0, hxw, hy0, hyh⟩ := hi
  refine ⟨hxw, hyh, ?_, ?_⟩
  · intro ch
    rw [display_char_eq td ch ⟨⟨hw, hh, hm0, hm1, hm2⟩, hx0, hxw, hy0, hyh⟩]
    rfl
  · rw [he2]
    rfl

theorem display_char_guards_unreachable_witness :
    (init_vt102_generic_backend 80 24 zeroBuf zeroBuf falseBuf).cursor_x <
      (init_vt102_generic_backend 80 24 zeroBuf zeroBuf falseBuf).con_width ∧
    (init_vt102_generic_backend 80 24 zeroBuf zeroBuf falseBuf).cursor_y <
      (init_vt102_generic_backend 80 24 zeroBuf zeroBuf falseBuf).con_height ∧
    (display_char (init_vt102_generic_backend 80 24 zeroBuf zeroBuf falseBuf) 65).isSome = true ∧
    (handle_horiz_tab (init_vt102_generic_backend 80 24 zeroBuf zeroBuf falseBuf)).isSome = true := by
  have h := display_char_guards_unreachable _
    (Reachable.init 80 24 zeroBuf zeroBuf falseBuf)
  exact ⟨h.1, h.2.1, h.2.2.1 65, h.2.2.2⟩

/-- C2: after init and after every backend operation, with arbitrary
integer arguments, the cursor satisfies `0 ≤ cursor_x < con_width` and
`0 ≤ cursor_y < con_height`. -/
theorem cursor_in_bounds_invariant (td : TermData) (h : Reachable td) :
    0 ≤ td.cursor_x ∧ td.cursor_x < td.con_width ∧
    0 ≤ td.cursor_y ∧ td.cursor_y < td.con_height := by
  obtain ⟨_, hx0, hxw, hy0, hyh⟩ := reachable_inv td h
  exact ⟨hx0, hxw, hy0, hyh⟩

theorem cursor_in_bounds_invariant_witness :
    0 ≤ (handle_linefeed (init_vt102_generic_backend 80 24 zeroBuf zeroBuf falseBuf)).cursor_x ∧
    (handle_linefeed (init_vt102_generic_backend 80 24 zeroBuf zeroBuf falseBuf)).cursor_x <
      (handle_linefeed (init_vt102_generic_backend 80 24 zeroBuf zeroBuf falseBuf)).con_width ∧
    0 ≤ (handle_linefeed (init_vt102_generic_backend 80 24 zeroBuf zeroBuf falseBuf)).cursor_y ∧
    (handle_linefeed (init_vt102_generic_backend 80 24 zeroBuf zeroBuf falseBuf)).cursor_y <
      (handle_linefeed (init_vt102_generic_backend 80 24 zeroBuf zeroBuf falseBuf)).con_height :=
  cursor_in_bounds_invariant _
    (Reachable.linefeed _ (Reachable.init 80 24 zeroBuf zeroBuf falseBuf))

/-- C3 counterexample: immediately after `init_vt102_generic_backend 80 24`
the cell at index 0 does NOT hold the space character (byte 32); the
initializer memsets the character buffer with the letter E (byte 69). -/
theorem init_cell_is_not_space :
    (init_vt102_generic_backend 80 24 zeroBuf zeroBuf falseBuf).chbuf 0 ≠ 32 := by
  decide

/-- C3 amended: immediately after `init_vt102_generic_backend` succeeds,
every one of the `con_width * con_height` cells holds the character
`'E'` (byte 69) with rendition 0 (fg=0, bg=0), and every entry of the
per-line dirty flags is true. -/
theorem init_screen_contents (w h : Int) (ch0 gr0 : Int → Nat)
    (mr0 : Int → Bool) (i y : Int) (hi0 : 0 ≤ i)
    (hiWH : i < (init_vt102_generic_backend w h ch0 gr0 mr0).con_width *
      (init_vt102_generic_backend w h ch0 gr0 mr0).con_height)
    (hy0 : 0 ≤ y)
    (hyH : y < (init_vt102_generic_backend w h ch0 gr0 mr0).con_height) :
    (init_vt102_generic_backend w h ch0 gr0 mr0).chbuf i = 69 ∧
    (init_vt102_generic_backend w h ch0 gr0 mr0).grbuf i = 0 ∧
    (init_vt102_generic_backend w h ch0 gr0 mr0).must_refresh_line_buf y = true := by
  simp only [init_vt102_generic_backend, memsetN, memsetB,
    NR_MIN_VT102_SCREEN_COLUMNS, NR_MIN_VT102_SCREEN_ROWS] at *
  refine ⟨?_, ?_, ?_⟩ <;> rw [if_pos] <;> constructor <;> omega

theorem init_screen_contents_witness :
    (init_vt102_generic_backend 80 24 zeroBuf zeroBuf falseBuf).chbuf 5 = 69 ∧
    (init_vt102_generic_backend 80 24 zeroBuf zeroBuf falseBuf).grbuf 5 = 0 ∧
    (init_vt102_generic_backend 80 24 zeroBuf zeroBuf falseBuf).must_refresh_line_buf 3 = true :=
  init_screen_contents 80 24 zeroBuf zeroBuf falseBuf 5 3
    (by decide) (by decide) (by decide) (by decide)

/-- a concrete reachable state on a 10x4 screen with the cursor at
column 3, row 2 (margins at the full screen, rows 0..3). -/
def rev_index_demo_state : TermData :=
  move_cursor_absolute (init_vt102_generic_backend 10 4 zeroBuf zeroBuf falseBuf) 3 2

/-- C4: evaluation of `cursor_reverse_index` at a concrete reachable state
with `cursor_y` above `margin_top`: the source passes the current column as
the horizontal DELTA of `move_cursor_relative`, so the column doubles from
3 to 6 instead of staying 3, while the row decrements from 2 to 1. -/
theorem cursor_reverse_index_changes_column :
    rev_index_demo_state.cursor_x = 3 ∧ rev_index_demo_state.cursor_y = 2 ∧
    rev_index_demo_state.margin_top = 0 ∧
    (cursor_reverse_index rev_index_demo_state).cursor_x = 6 ∧
    (cursor_reverse_index rev_index_demo_state).cursor_y = 1 := by
  decide

/-- C6: evaluation of the scroll-down of `cursor_reverse_index` at a
concrete reachable state (fresh 10x4 screen, cursor at the top margin):
the vacated top row receives character bytes 32 (space), but its rendition
bytes are memset with `' '` as well, i.e. they become 32 (bg = 2) rather
than the 0 the scroll-up path uses. -/
theorem reverse_index_scroll_fills_rendition_with_space :
    (cursor_reverse_index (init_vt102_generic_backend 10 4 zeroBuf zeroBuf falseBuf)).chbuf 0 = 32 ∧
    (cursor_reverse_index (init_vt102_generic_backend 10 4 zeroBuf zeroBuf falseBuf)).grbuf 0 = 32 ∧
    (cursor_reverse_index (init_vt102_generic_backend 10 4 zeroBuf zeroBuf falseBuf)).grbuf 0 ≠ 0 := by
  decide

/-- C9: `set_top_and_bottom_margins` always establishes
`0 ≤ margin_top < margin_bottom ≤ con_height - 1` from arbitrary integer
arguments, and modifies nothing else: cursor, cells, rendition, dirty
flags and `must_refresh` are all untouched (in particular the cursor is
not re-clamped into the new scrolling region). -/
theorem set_margins_frame_effect (td : TermData) (top bottom : Int)
    (hh : 2 ≤ td.con_height) :
    0 ≤ (set_top_and_bottom_margins td top bottom).margin_top ∧
    (set_top_and_bottom_margins td top bottom).margin_top <
      (set_top_and_bottom_margins td top bottom).margin_bottom ∧
    (set_top_and_bottom_margins td top bottom).margin_bottom ≤ td.con_height - 1 ∧
    (set_top_and_bottom_margins td top bottom).cursor_x = td.cursor_x ∧
    (set_top_and_bottom_margins td top bottom).cursor_y = td.cursor_y ∧
    (set_top_and_bottom_margins td top bottom).chbuf = td.chbuf ∧
    (set_top_and_bottom_margins td top bottom).grbuf = td.grbuf ∧
    (set_top_and_bottom_margins td top bottom).cur_fg_gc_idx = td.cur_fg_gc_idx ∧
    (set_top_and_bottom_margins td top bottom).cur_bg_gc_idx = td.cur_bg_gc_idx ∧
    (set_top_and_bottom_margins td top bottom).must_refresh_line_buf = td.must_refresh_line_buf ∧
    (set_top_and_bottom_margins td top bottom).must_refresh = td.must_refresh ∧
    (set_top_and_bottom_margins td top bottom).con_width = td.con_width ∧
    (set_top_and_bottom_margins td top bottom).con_height = td.con_height := by
  unfold set_top_and_bottom_margins
  dsimp only
  refine ⟨?_, ?_, ?_, rfl, rfl, rfl, rfl, rfl, rfl, rfl, rfl, rfl, rfl⟩ <;>
    split_ifs <;> omega

theorem set_margins_frame_effect_witness :
    0 ≤ (set_top_and_bottom_margins
      (init_vt102_generic_backend 10 4 zeroBuf zeroBuf falseBuf) (-5) 100).margin_top ∧
    (set_top_and_bottom_margins
      (init_vt102_generic_backend 10 4 zeroBuf zeroBuf falseBuf) (-5) 100).margin_top <
      (set_top_and_bottom_margins
        (init_vt102_generic_backend 10 4 zeroBuf zeroBuf falseBuf) (-5) 100).margin_bottom ∧
    (set_top_and_bottom_margins
      (init_vt102_generic_backend 10 4 zeroBuf zeroBuf falseBuf) (-5) 100).cursor_y =
      (init_vt102_generic_backend 10 4 zeroBuf zeroBuf falseBuf).cursor_y := by
  have h := set_margins_frame_effect
    (init_vt102_generic_backend 10 4 zeroBuf zeroBuf falseBuf) (-5) 100 (by decide)
  exact ⟨h.1, h.2.1, h.2.2.2.2.1⟩

lemma sgr_step_range (td : TermData) (p : Nat)
    (hf0 : 0 ≤ td.cur_fg_gc_idx) (hf7 : td.cur_fg_gc_idx ≤ 7)
    (hb0 : 0 ≤ td.cur_bg_gc_idx) (hb7 : td.cur_bg_gc_idx ≤ 7) :
    0 ≤ (sgr_step td p).cur_fg_gc_idx ∧ (sgr_step td p).cur_fg_gc_idx ≤ 7 ∧
    0 ≤ (sgr_step td p).cur_bg_gc_idx ∧ (sgr_step td p).cur_bg_gc_idx ≤ 7 := by
  unfold sgr_step
  split_ifs <;> refine ⟨?_, ?_, ?_, ?_⟩ <;> dsimp only <;> omega

lemma sgr_step_unrecognized (td : TermData) (p : Nat)
    (hp : ¬ (p = 0 ∨ p = 7 ∨ (30 ≤ p ∧ p ≤ 37) ∨ p = 39 ∨ (40 ≤ p ∧ p ≤ 47) ∨ p = 49)) :
    sgr_step td p = td := by
  push_neg at hp
  unfold sgr_step
  split_ifs <;> first
    | rfl
    | (exfalso; omega)

/-- C10: for every parameter list, `select_graphic_rendition` keeps
`cur_fg_gc_idx` and `cur_bg_gc_idx` inside `0..7` whenever they start
there, and any single parameter outside `{0, 7, 30..37, 39, 40..47, 49}`
leaves both indices unchanged. -/
theorem sgr_indices_in_range :
    (∀ (td : TermData) (ps : List Nat),
      0 ≤ td.cur_fg_gc_idx → td.cur_fg_gc_idx ≤ 7 →
      0 ≤ td.cur_bg_gc_idx → td.cur_bg_gc_idx ≤ 7 →
      0 ≤ (select_graphic_rendition td ps).cur_fg_gc_idx ∧
      (select_graphic_rendition td ps).cur_fg_gc_idx ≤ 7 ∧
      0 ≤ (select_graphic_rendition td ps).cur_bg_gc_idx ∧
      (select_graphic_rendition td ps).cur_bg_gc_idx ≤ 7) ∧
    (∀ (td : TermData) (p : Nat),
      ¬ (p = 0 ∨ p = 7 ∨ (30 ≤ p ∧ p ≤ 37) ∨ p = 39 ∨ (40 ≤ p ∧ p ≤ 47) ∨ p = 49) →
      (select_graphic_rendition td [p]).cur_fg_gc_idx = td.cur_fg_gc_idx ∧
      (select_graphic_rendition td [p]).cur_bg_gc_idx = td.cur_bg_gc_idx) := by
  constructor
  · intro td ps
    induction ps generalizing td with
    | nil => intro h1 h2 h3 h4; exact ⟨h1, h2, h3, h4⟩
    | cons p ps ih =>
      intro h1 h2 h3 h4
      obtain ⟨g1, g2, g3, g4⟩ := sgr_step_range td p h1 h2 h3 h4
      exact ih (sgr_step td p) g1 g2 g3 g4
  · intro td p hp
    have h : select_graphic_rendition td [p] = sgr_step td p := rfl
    rw [h, sgr_step_unrecognized td p hp]
    exact ⟨rfl, rfl⟩

theorem sgr_indices_in_range_witness :
    0 ≤ (select_graphic_rendition
      (init_vt102_generic_backend 80 24 zeroBuf zeroBuf falseBuf) [31, 44]).cur_fg_gc_idx ∧
    (select_graphic_rendition
      (init_vt102_generic_backend 80 24 zeroBuf zeroBuf falseBuf) [31, 44]).cur_fg_gc_idx ≤ 7 ∧
    0 ≤ (select_graphic_rendition
      (init_vt102_generic_backend 80 24 zeroBuf zeroBuf falseBuf) [31, 44]).cur_bg_gc_idx ∧
    (select_graphic_rendition
      (init_vt102_generic_backend 80 24 zeroBuf zeroBuf falseBuf) [31, 44]).cur_bg_gc_idx ≤ 7 ∧
    (select_graphic_rendition
      (init_vt102_generic_backend 80 24 zeroBuf zeroBuf falseBuf) [99]).cur_fg_gc_idx =
      (init_vt102_generic_backend 80 24 zeroBuf zeroBuf falseBuf).cur_fg_gc_idx := by
  have h1 := sgr_indices_in_range.1
    (init_vt102_generic_backend 80 24 zeroBuf zeroBuf falseBuf) [31, 44]
    (by decide) (by decide) (by decide) (by decide)
  have h2 := sgr_indices_in_range.2
    (init_vt102_generic_backend 80 24 zeroBuf zeroBuf falseBuf) 99 (by decide)
  exact ⟨h1.1, h1.2.1, h1.2.2.1, h1.2.2.2, h2.1⟩

/-- a concrete 10x2 screen state whose row 0 has pairwise-interesting
rendition bytes (3 everywhere except 5 at column 1), cursor at (0, 0). -/
def dch_demo_state : TermData :=
  { cur_fg_gc_idx := 7
    cur_bg_gc_idx := 0
    con_width := 10
    con_height := 2
    chbuf := fun i => if 0 ≤ i ∧ i < 20 then 65 + i.toNat % 10 else 0
    grbuf := fun i => if i = 1 then 5 else 3
    cursor_x := 0
    cursor_y := 0
    margin_top := 0
    margin_bottom := 1
    must_refresh := false
    must_refresh_line_buf := fun _ => false }

/-- C5 counterexample: `delete_characters_at_cursor 1` does NOT shift the
rendition bytes (the cell at column 0 keeps rendition 3 instead of
receiving the 5 shifted from column 1), and does NOT set the vacated
rightmost cell's rendition to 0 (it stays 3): the source only touches
`chbuf`. -/
theorem delete_chars_ignores_rendition :
    dch_demo_state.grbuf 1 = 5 ∧
    (delete_characters_at_cursor dch_demo_state 1).grbuf 0 = 3 ∧
    (delete_characters_at_cursor dch_demo_state 1).grbuf 0 ≠ dch_demo_state.grbuf 1 ∧
    (delete_characters_at_cursor dch_demo_state 1).grbuf 9 ≠ 0 := by
  decide

/-- C5 amended: `delete_characters_at_cursor n` with `n > 0` clamps `n` to
at most `con_width - cursor_x`, shifts only the CHARACTER bytes of row
`cursor_y` from column `cursor_x + n` through `con_width - 1` left by `n`,
fills the vacated rightmost character cells of the row with space, leaves
the rendition buffer entirely unchanged, leaves the characters outside the
shifted row segment unchanged, and is a no-op when `n ≤ 0`. -/
theorem delete_characters_at_cursor_spec (td : TermData) (n : Int) :
    (n ≤ 0 → delete_characters_at_cursor td n = td) ∧
    (0 < n →
      let m := if td.con_width - td.cursor_x < n then td.con_width - td.cursor_x else n
      let w := td.con_width
      let cy := td.cursor_y
      let cx := td.cursor_x
      let e := delete_characters_at_cursor td n
      (∀ j, cx ≤ j → j < w - m → e.chbuf (cy * w + j) = td.chbuf (cy * w + j + m)) ∧
      (∀ j, w - m ≤ j → j < w → e.chbuf (cy * w + j) = 32) ∧
      (∀ i, i < cy * w + cx ∨ cy * w + w ≤ i → e.chbuf i = td.chbuf i) ∧
      e.grbuf = td.grbuf ∧
      e.must_refresh_line_buf cy = true ∧
      e.must_refresh = true ∧
      e.cursor_x = td.cursor_x ∧ e.cursor_y = td.cursor_y ∧
      e.con_width = td.con_width ∧ e.con_height = td.con_height) := by
  constructor
  · intro hn
    unfold delete_characters_at_cursor
    rw [if_pos hn]
  · intro hn
    have hrw : (td.cursor_y + 1) * td.con_width =
        td.cursor_y * td.con_width + td.con_width := by ring
    have he : delete_characters_at_cursor td n =
        { td with
          chbuf := memsetN
            (memmoveN td.chbuf (td.cursor_y * td.con_width + td.cursor_x)
              (td.cursor_y * td.con_width + td.cursor_x +
                (if td.con_width - td.cursor_x < n then td.con_width - td.cursor_x else n))
              (td.con_width - td.cursor_x -
                (if td.con_width - td.cursor_x < n then td.con_width - td.cursor_x else n)))
            ((td.cursor_y + 1) * td.con_width -
              (if td.con_width - td.cursor_x < n then td.con_width - td.cursor_x else n))
            (if td.con_width - td.cursor_x < n then td.con_width - td.cursor_x else n) 32,
          must_refresh_line_buf :=
            fun j => if j = td.cursor_y then true else td.must_refresh_line_buf j,
          must_refresh := true } := by
      unfold delete_characters_at_cursor
      rw [if_neg (by omega)]
    dsimp only
    rw [he]
    refine ⟨?_, ?_, ?_, rfl, ?_, rfl, rfl, rfl, rfl, rfl⟩
    · intro j hj1 hj2
      by_cases hc : td.con_width - td.cursor_x < n
      · rw [if_pos hc] at hj2
        exact absurd hj2 (by omega)
      · rw [if_neg hc] at hj2 ⊢
        show memsetN (memmoveN td.chbuf _ _ _) _ _ 32 _ = _
        simp only [memsetN, memmoveN]
        rw [if_neg (by omega), if_pos (⟨by omega, by omega⟩ : _ ∧ _)]
        congr 1
        omega
    · intro j hj1 hj2
      by_cases hc : td.con_width - td.cursor_x < n
      · rw [if_pos hc] at hj1 ⊢
        show memsetN (memmoveN td.chbuf _ _ _) _ _ 32 _ = 32
        simp only [memsetN]
        rw [if_pos (⟨by omega, by omega⟩ : _ ∧ _)]
      · rw [if_neg hc] at hj1 ⊢
        show memsetN (memmoveN td.chbuf _ _ _) _ _ 32 _ = 32
        simp only [memsetN]
        rw [if_pos (⟨by omega, by omega⟩ : _ ∧ _)]
    · intro i hi
      by_cases hc : td.con_width - td.cursor_x < n
      · rw [if_pos hc]
        show memsetN (memmoveN td.chbuf _ _ _) _ _ 32 _ = _
        simp only [memsetN, memmoveN]
        rw [if_neg (by omega), if_neg (by omega)]
      · rw [if_neg hc]
        show memsetN (memmoveN td.chbuf _ _ _) _ _ 32 _ = _
        simp only [memsetN, memmoveN]
        rw [if_neg (by omega), if_neg (by omega)]
    · show (if td.cursor_y = td.cursor_y then true else td.must_refresh_line_buf td.cursor_y) = true
      rw [if_pos rfl]

theorem delete_characters_at_cursor_spec_witness :
    (delete_characters_at_cursor dch_demo_state 3).chbuf 0 = dch_demo_state.chbuf 3 ∧
    (delete_characters_at_cursor dch_demo_state 3).chbuf 9 = 32 ∧
    (delete_characters_at_cursor dch_demo_state 3).grbuf = dch_demo_state.grbuf := by
  have h := (delete_characters_at_cursor_spec dch_demo_state 3).2 (by decide)
  refine ⟨?_, ?_, h.2.2.2.1⟩
  · have h0 := h.1 0 (by decide) (by decide)
    simpa using h0
  · have h9 := h.2.1 9 (by decide) (by decide)
    simpa using h9

/-- the scalar frame shared by every erase operation: cursor, margins,
current rendition and screen dimensions are untouched. -/
def EraseFrame (td e : TermData) : Prop :=
  e.cursor_x = td.cursor_x ∧ e.cursor_y = td.cursor_y ∧
  e.margin_top = td.margin_top ∧ e.margin_bottom = td.margin_bottom ∧
  e.cur_fg_gc_idx = td.cur_fg_gc_idx ∧ e.cur_bg_gc_idx = td.cur_bg_gc_idx ∧
  e.con_width = td.con_width ∧ e.con_height = td.con_height

lemma erase_line_at_cursor_spec (td : TermData) (i : Int) :
    ((td.cursor_y * td.con_width ≤ i ∧ i < td.cursor_y * td.con_width + td.con_width →
        (erase_line_at_cursor td).chbuf i = 32 ∧ (erase_line_at_cursor td).grbuf i = 0) ∧
      (¬ (td.cursor_y * td.con_width ≤ i ∧ i < td.cursor_y * td.con_width + td.con_width) →
        (erase_line_at_cursor td).chbuf i = td.chbuf i ∧
        (erase_line_at_cursor td).grbuf i = td.grbuf i)) ∧
    EraseFrame td (erase_line_at_cursor td) := by
  unfold erase_line_at_cursor EraseFrame
  refine ⟨⟨?_, ?_⟩, rfl, rfl, rfl, rfl, rfl, rfl, rfl, rfl⟩ <;>
    intro h <;> simp only [memsetN] <;>
    constructor <;> first
      | rw [if_pos (⟨by omega, by omega⟩ : _ ∧ _)]
      | rw [if_neg (by omega)]

lemma erase_line_from_beginning_to_cursor_spec (td : TermData) (i : Int) :
    ((td.cursor_y * td.con_width ≤ i ∧ i ≤ td.cursor_y * td.con_width + td.cursor_x →
        (erase_line_from_beginning_to_cursor td).chbuf i = 32 ∧
        (erase_line_from_beginning_to_cursor td).grbuf i = 0) ∧
      (¬ (td.cursor_y * td.con_width ≤ i ∧ i ≤ td.cursor_y * td.con_width + td.cursor_x) →
        (erase_line_from_beginning_to_cursor td).chbuf i = td.chbuf i ∧
        (erase_line_from_beginning_to_cursor td).grbuf i = td.grbuf i)) ∧
    EraseFrame td (erase_line_from_beginning_to_cursor td) := by
  unfold erase_line_from_beginning_to_cursor EraseFrame
  refine ⟨⟨?_, ?_⟩, rfl, rfl, rfl, rfl, rfl, rfl, rfl, rfl⟩ <;>
    intro h <;> simp only [memsetN] <;>
    constructor <;> first
      | rw [if_pos (⟨by omega, by omega⟩ : _ ∧ _)]
      | rw [if_neg (by omega)]

lemma erase_line_from_cursor_to_end_spec (td : TermData) (i : Int) :
    ((td.cursor_y * td.con_width + td.cursor_x ≤ i ∧
        i < td.cursor_y * td.con_width + td.con_width →
        (erase_line_from_cursor_to_end td).chbuf i = 32 ∧
        (erase_line_from_cursor_to_end td).grbuf i = 0) ∧
      (¬ (td.cursor_y * td.con_width + td.cursor_x ≤ i ∧
        i < td.cursor_y * td.con_width + td.con_width) →
        (erase_line_from_cursor_to_end td).chbuf i = td.chbuf i ∧
        (erase_line_from_cursor_to_end td).grbuf i = td.grbuf i)) ∧
    EraseFrame td (erase_line_from_cursor_to_end td) := by
  unfold erase_line_from_cursor_to_end EraseFrame
  refine ⟨⟨?_, ?_⟩, rfl, rfl, rfl, rfl, rfl, rfl, rfl, rfl⟩ <;>
    intro h <;> simp only [memsetN] <;>
    constructor <;> first
      | rw [if_pos (⟨by omega, by omega⟩ : _ ∧ _)]
      | rw [if_neg (by omega)]

lemma erase_display_spec (td : TermData) (i : Int) :
    ((0 ≤ i ∧ i < td.con_height * td.con_width →
        (erase_display td).chbuf i = 32 ∧ (erase_display td).grbuf i = 0) ∧
      (¬ (0 ≤ i ∧ i < td.con_height * td.con_width) →
        (erase_display td).chbuf i = td.chbuf i ∧
        (erase_display td).grbuf i = td.grbuf i)) ∧
    EraseFrame td (erase_display td) := by
  unfold erase_display EraseFrame
  refine ⟨⟨?_, ?_⟩, rfl, rfl, rfl, rfl, rfl, rfl, rfl, rfl⟩ <;>
    intro h <;> simp only [memsetN] <;>
    constructor <;> first
      | rw [if_pos (⟨by omega, by omega⟩ : _ ∧ _)]
      | rw [if_neg (by omega)]

lemma erase_display_from_beginning_to_cursor_spec (td : TermData) (i : Int)
    (hy0 : 0 ≤ td.cursor_y) (hw0 : 0 < td.con_width) :
    ((0 ≤ i ∧ i ≤ td.cursor_y * td.con_width + td.cursor_x →
        (erase_display_from_beginning_to_cursor td).chbuf i = 32 ∧
        (erase_display_from_beginning_to_cursor td).grbuf i = 0) ∧
      (¬ (0 ≤ i ∧ i ≤ td.cursor_y * td.con_width + td.cursor_x) →
        (erase_display_from_beginning_to_cursor td).chbuf i = td.chbuf i ∧
        (erase_display_from_beginning_to_cursor td).grbuf i = td.grbuf i)) ∧
    EraseFrame td (erase_display_from_beginning_to_cursor td) := by
  have hA : 0 ≤ td.cursor_y * td.con_width :=
    mul_nonneg hy0 (by omega)
  unfold erase_display_from_beginning_to_cursor erase_line_from_beginning_to_cursor EraseFrame
  dsimp only
  refine ⟨⟨?_, ?_⟩, rfl, rfl, rfl, rfl, rfl, rfl, rfl, rfl⟩ <;>
    intro h <;> simp only [memsetN] <;> constructor <;> split_ifs <;>
    first | rfl | omega

lemma erase_display_from_cursor_to_end_spec (td : TermData) (i : Int)
    (hw0 : 0 < td.con_width) (hyh : td.cursor_y < td.con_height) :
    ((td.cursor_y * td.con_width + td.cursor_x ≤ i ∧
        i < td.con_width * td.con_height →
        (erase_display_from_cursor_to_end td).chbuf i = 32 ∧
        (erase_display_from_cursor_to_end td).grbuf i = 0) ∧
      (¬ (td.cursor_y * td.con_width + td.cursor_x ≤ i ∧
        i < td.con_width * td.con_height) →
        (erase_display_from_cursor_to_end td).chbuf i = td.chbuf i ∧
        (erase_display_from_cursor_to_end td).grbuf i = td.grbuf i)) ∧
    EraseFrame td (erase_display_from_cursor_to_end td) := by
  have hB : td.cursor_y * td.con_width + td.con_width ≤ td.con_width * td.con_height := by
    have h1 : (td.cursor_y + 1) * td.con_width ≤ td.con_height * td.con_width :=
      mul_le_mul_of_nonneg_right (by omega) (by omega)
    have h2 : (td.cursor_y + 1) * td.con_width =
        td.cursor_y * td.con_width + td.con_width := by ring
    have h3 : td.con_height * td.con_width = td.con_width * td.con_height := by ring
    omega
  unfold erase_display_from_cursor_to_end erase_line_from_cursor_to_end EraseFrame
  dsimp only
  refine ⟨⟨?_, ?_⟩, rfl, rfl, rfl, rfl, rfl, rfl, rfl, rfl⟩ <;>
    intro h <;> simp only [memsetN] <;> constructor <;> split_ifs <;>
    first | rfl | omega

/-- C7: each of the six erase operations sets every cell of its documented
range to the space character with rendition 0 (fg=0, bg=0), and leaves the
cursor, the margins, the current rendition, the screen dimensions and
every cell outside the range unchanged. -/
theorem erase_operations_spec (td : TermData) (i : Int)
    (hx0 : 0 ≤ td.cursor_x) (hxw : td.cursor_x < td.con_width)
    (hy0 : 0 ≤ td.cursor_y) (hyh : td.cursor_y < td.con_height) :
    (((td.cursor_y * td.con_width ≤ i ∧ i < td.cursor_y * td.con_width + td.con_width →
        (erase_line_at_cursor td).chbuf i = 32 ∧ (erase_line_at_cursor td).grbuf i = 0) ∧
      (¬ (td.cursor_y * td.con_width ≤ i ∧ i < td.cursor_y * td.con_width + td.con_width) →
        (erase_line_at_cursor td).chbuf i = td.chbuf i ∧
        (erase_line_at_cursor td).grbuf i = td.grbuf i)) ∧
      EraseFrame td (erase_line_at_cursor td)) ∧
    (((td.cursor_y * td.con_width ≤ i ∧ i ≤ td.cursor_y * td.con_width + td.cursor_x →
        (erase_line_from_beginning_to_cursor td).chbuf i = 32 ∧
        (erase_line_from_beginning_to_cursor td).grbuf i = 0) ∧
      (¬ (td.cursor_y * td.con_width ≤ i ∧ i ≤ td.cursor_y * td.con_width + td.cursor_x) →
        (erase_line_from_beginning_to_cursor td).chbuf i = td.chbuf i ∧
        (erase_line_from_beginning_to_cursor td).grbuf i = td.grbuf i)) ∧
      EraseFrame td (erase_line_from_beginning_to_cursor td)) ∧
    (((td.cursor_y * td.con_width + td.cursor_x ≤ i ∧
        i < td.cursor_y * td.con_width + td.con_width →
        (erase_line_from_cursor_to_end td).chbuf i = 32 ∧
        (erase_line_from_cursor_to_end td).grbuf i = 0) ∧
      (¬ (td.cursor_y * td.con_width + td.cursor_x ≤ i ∧
        i < td.cursor_y * td.con_width + td.con_width) →
        (erase_line_from_cursor_to_end td).chbuf i = td.chbuf i ∧
        (erase_line_from_cursor_to_end td).grbuf i = td.grbuf i)) ∧
      EraseFrame td (erase_line_from_cursor_to_end td)) ∧
    (((0 ≤ i ∧ i < td.con_height * td.con_width →
        (erase_display td).chbuf i = 32 ∧ (erase_display td).grbuf i = 0) ∧
      (¬ (0 ≤ i ∧ i < td.con_height * td.con_width) →
        (erase_display td).chbuf i = td.chbuf i ∧
        (erase_display td).grbuf i = td.grbuf i)) ∧
      EraseFrame td (erase_display td)) ∧
    (((0 ≤ i ∧ i ≤ td.cursor_y * td.con_width + td.cursor_x →
        (erase_display_from_beginning_to_cursor td).chbuf i = 32 ∧
        (erase_display_from_beginning_to_cursor td).grbuf i = 0) ∧
      (¬ (0 ≤ i ∧ i ≤ td.cursor_y * td.con_width + td.cursor_x) →
        (erase_display_from_beginning_to_cursor td).chbuf i = td.chbuf i ∧
        (erase_display_from_beginning_to_cursor td).grbuf i = td.grbuf i)) ∧
      EraseFrame td (erase_display_from_beginning_to_cursor td)) ∧
    (((td.cursor_y * td.con_width + td.cursor_x ≤ i ∧
        i < td.con_width * td.con_height →
        (erase_display_from_cursor_to_end td).chbuf i = 32 ∧
        (erase_display_from_cursor_to_end td).grbuf i = 0) ∧
      (¬ (td.cursor_y * td.con_width + td.cursor_x ≤ i ∧
        i < td.con_width * td.con_height) →
        (erase_display_from_cursor_to_end td).chbuf i = td.chbuf i ∧
        (erase_display_from_cursor_to_end td).grbuf i = td.grbuf i)) ∧
      EraseFrame td (erase_display_from_cursor_to_end td)) :=
  ⟨erase_line_at_cursor_spec td i,
   erase_line_from_beginning_to_cursor_spec td i,
   erase_line_from_cursor_to_end_spec td i,
   erase_display_spec td i,
   erase_display_from_beginning_to_cursor_spec td i hy0 (by omega),
   erase_display_from_cursor_to_end_spec td i (by omega) hyh⟩

theorem erase_operations_spec_witness :
    (erase_display dch_demo_state).chbuf 7 = 32 ∧
    (erase_display dch_demo_state).grbuf 7 = 0 ∧
    (erase_line_from_cursor_to_end dch_demo_state).chbuf 13 = dch_demo_state.chbuf 13 ∧
    EraseFrame dch_demo_state (erase_line_at_cursor dch_demo_state) := by
  have h := erase_operations_spec dch_demo_state 7
    (by decide) (by decide) (by decide) (by decide)
  have h13 := erase_operations_spec dch_demo_state 13
    (by decide) (by decide) (by decide) (by decide)
  have hd := h.2.2.2.1.1.1 (by decide)
  have hle := (h13.2.2.1.1.2 (by decide)).1
  exact ⟨hd.1, hd.2, hle, h.1.2⟩

lemma copy_rows_at_in (dst src : Int → Nat) (nw ow wm : Int)
    (h0 : 0 ≤ wm) (hwm : wm ≤ nw) :
    ∀ (n : Nat) (x y : Int), 0 ≤ x → x < wm → 0 ≤ y → y < (n : Int) →
      copy_rows dst src nw ow wm n (y * nw + x) = src (y * ow + x) := by
  intro n
  induction n with
  | zero =>
    intro x y _ _ hy0 hyn
    exfalso
    omega
  | succ n ih =>
    intro x y hx0 hxw hy0 hyn
    simp only [copy_rows, memcpy2]
    by_cases hy : y = (n : Int)
    · subst hy
      rw [if_pos (⟨by omega, by omega⟩ : _ ∧ _)]
      congr 1
      omega
    · have hnw : 0 ≤ nw := le_trans h0 hwm
      have hexp : (y + 1) * nw = y * nw + nw := by ring
      have hmul : (y + 1) * nw ≤ (n : Int) * nw :=
        mul_le_mul_of_nonneg_right (by omega) hnw
      rw [if_neg (by omega)]
      exact ih x y hx0 hxw hy0 (by omega)

lemma copy_rows_at_out (dst src : Int → Nat) (nw ow wm : Int)
    (h0 : 0 ≤ wm) (hwm : wm ≤ nw) :
    ∀ (n : Nat) (x y : Int), 0 ≤ x → x < nw → 0 ≤ y →
      (wm ≤ x ∨ (n : Int) ≤ y) →
      copy_rows dst src nw ow wm n (y * nw + x) = dst (y * nw + x) := by
  intro n
  induction n with
  | zero => intro x y _ _ _ _; rfl
  | succ n ih =>
    intro x y hx0 hxw hy0 hcase
    simp only [copy_rows, memcpy2]
    have hnw : 0 ≤ nw := le_trans h0 hwm
    rcases hcase with hxm | hny
    · rcases lt_trichotomy y (n : Int) with hy | hy | hy
      · have hexp : (y + 1) * nw = y * nw + nw := by ring
        have hmul : (y + 1) * nw ≤ (n : Int) * nw :=
          mul_le_mul_of_nonneg_right (by omega) hnw
        rw [if_neg (by omega)]
        exact ih x y hx0 hxw hy0 (Or.inl hxm)
      · have hyy : y * nw = (n : Int) * nw := by rw [hy]
        rw [if_neg (by omega)]
        exact ih x y hx0 hxw hy0 (Or.inl hxm)
      · have hexp : ((n : Int) + 1) * nw = (n : Int) * nw + nw := by ring
        have hmul : ((n : Int) + 1) * nw ≤ y * nw :=
          mul_le_mul_of_nonneg_right (by omega) hnw
        rw [if_neg (by omega)]
        exact ih x y hx0 hxw hy0 (Or.inl hxm)
    · have hexp : ((n : Int) + 1) * nw = (n : Int) * nw + nw := by ring
      have hmul : ((n : Int) + 1) * nw ≤ y * nw :=
        mul_le_mul_of_nonneg_right (by omega) hnw
      rw [if_neg (by omega)]
      exact ih x y hx0 hxw hy0 (Or.inr (by omega))

lemma resize_clamped_width_ge (nw : Int) :
    NR_MIN_VT102_SCREEN_COLUMNS ≤ resize_clamped_width nw := by
  unfold resize_clamped_width
  split_ifs <;> omega

lemma resize_clamped_height_ge (nh : Int) :
    NR_MIN_VT102_SCREEN_ROWS ≤ resize_clamped_height nh := by
  unfold resize_clamped_height
  split_ifs <;> omega

/-- C8: `vt102_generic_backend_resize_buffers`, with the requested
dimensions first clamped up to at least 10 columns and 2 rows, produces a
screen of the clamped dimensions whose top-left
`min(old_w, new_w) x min(old_h, new_h)` subgrid (characters and
renditions) equals the old screen's, with all other cells space at
rendition 0, `margin_top = 0`, `margin_bottom = new_h - 1`, the cursor
clamped into the new bounds (each coordinate is kept when it still fits
and moved to the last column/row otherwise, so it always ends strictly
inside the new screen), and every per-line dirty flag true. -/
theorem resize_buffers_spec (td : TermData) (nw nh : Int) (ch0 gr0 : Int → Nat)
    (hw : 0 < td.con_width) (hh : 0 < td.con_height)
    (hx0 : 0 ≤ td.cursor_x) (hy0 : 0 ≤ td.cursor_y) :
    (vt102_generic_backend_resize_buffers td nw nh ch0 gr0).con_width =
      resize_clamped_width nw ∧
    (vt102_generic_backend_resize_buffers td nw nh ch0 gr0).con_height =
      resize_clamped_height nh ∧
    (∀ x y, 0 ≤ x → x < copy_width td (resize_clamped_width nw) →
      0 ≤ y → y < copy_height td (resize_clamped_height nh) →
      (vt102_generic_backend_resize_buffers td nw nh ch0 gr0).chbuf
          (y * resize_clamped_width nw + x) = td.chbuf (y * td.con_width + x) ∧
      (vt102_generic_backend_resize_buffers td nw nh ch0 gr0).grbuf
          (y * resize_clamped_width nw + x) = td.grbuf (y * td.con_width + x)) ∧
    (∀ x y, 0 ≤ x → x < resize_clamped_width nw →
      0 ≤ y → y < resize_clamped_height nh →
      ¬ (x < copy_width td (resize_clamped_width nw) ∧
        y < copy_height td (resize_clamped_height nh)) →
      (vt102_generic_backend_resize_buffers td nw nh ch0 gr0).chbuf
          (y * resize_clamped_width nw + x) = 32 ∧
      (vt102_generic_backend_resize_buffers td nw nh ch0 gr0).grbuf
          (y * resize_clamped_width nw + x) = 0) ∧
    (vt102_generic_backend_resize_buffers td nw nh ch0 gr0).margin_top = 0 ∧
    (vt102_generic_backend_resize_buffers td nw nh ch0 gr0).margin_bottom =
      resize_clamped_height nh - 1 ∧
    (td.cursor_x < resize_clamped_width nw →
      (vt102_generic_backend_resize_buffers td nw nh ch0 gr0).cursor_x =
        td.cursor_x) ∧
    (resize_clamped_width nw ≤ td.cursor_x →
      (vt102_generic_backend_resize_buffers td nw nh ch0 gr0).cursor_x =
        resize_clamped_width nw - 1) ∧
    (td.cursor_y < resize_clamped_height nh →
      (vt102_generic_backend_resize_buffers td nw nh ch0 gr0).cursor_y =
        td.cursor_y) ∧
    (resize_clamped_height nh ≤ td.cursor_y →
      (vt102_generic_backend_resize_buffers td nw nh ch0 gr0).cursor_y =
        resize_clamped_height nh - 1) ∧
    0 ≤ (vt102_generic_backend_resize_buffers td nw nh ch0 gr0).cursor_x ∧
    (vt102_generic_backend_resize_buffers td nw nh ch0 gr0).cursor_x <
      resize_clamped_width nw ∧
    0 ≤ (vt102_generic_backend_resize_buffers td nw nh ch0 gr0).cursor_y ∧
    (vt102_generic_backend_resize_buffers td nw nh ch0 gr0).cursor_y <
      resize_clamped_height nh ∧
    (∀ y, 0 ≤ y → y < resize_clamped_height nh →
      (vt102_generic_backend_resize_buffers td nw nh ch0 gr0).must_refresh_line_buf y =
        true) := by
  have hW10 : NR_MIN_VT102_SCREEN_COLUMNS ≤ resize_clamped_width nw :=
    resize_clamped_width_ge nw
  have hH2 : NR_MIN_VT102_SCREEN_ROWS ≤ resize_clamped_height nh :=
    resize_clamped_height_ge nh
  simp only [NR_MIN_VT102_SCREEN_COLUMNS, NR_MIN_VT102_SCREEN_ROWS] at hW10 hH2
  have hwm0 : 0 < copy_width td (resize_clamped_width nw) := by
    unfold copy_width
    split_ifs <;> omega
  have hwmW : copy_width td (resize_clamped_width nw) ≤ resize_clamped_width nw := by
    unfold copy_width
    split_ifs <;> omega
  have hhm0 : 0 < copy_height td (resize_clamped_height nh) := by
    unfold copy_height
    split_ifs <;> omega
  have hhmH : copy_height td (resize_clamped_height nh) ≤ resize_clamped_height nh := by
    unfold copy_height
    split_ifs <;> omega
  have htn : ((copy_height td (resize_clamped_height nh)).toNat : Int) =
      copy_height td (resize_clamped_height nh) :=
    Int.toNat_of_nonneg (by omega)
  have he : vt102_generic_backend_resize_buffers td nw nh ch0 gr0 =
      { td with
        chbuf := copy_rows
          (memsetN ch0 0 (resize_clamped_width nw * resize_clamped_height nh) 32)
          td.chbuf (resize_clamped_width nw) td.con_width
          (copy_width td (resize_clamped_width nw))
          (copy_height td (resize_clamped_height nh)).toNat,
        grbuf := copy_rows
          (memsetN gr0 0 (resize_clamped_width nw * resize_clamped_height nh) 0)
          td.grbuf (resize_clamped_width nw) td.con_width
          (copy_width td (resize_clamped_width nw))
          (copy_height td (resize_clamped_height nh)).toNat,
        must_refresh_line_buf :=
          memsetB td.must_refresh_line_buf 0 (resize_clamped_height nh) true,
        must_refresh := true,
        con_width := resize_clamped_width nw,
        con_height := resize_clamped_height nh,
        cursor_x := if resize_clamped_width nw ≤ td.cursor_x
          then resize_clamped_width nw - 1 else td.cursor_x,
        cursor_y := if resize_clamped_height nh ≤ td.cursor_y
          then resize_clamped_height nh - 1 else td.cursor_y,
        margin_top := 0,
        margin_bottom := resize_clamped_height nh - 1 } := rfl
  rw [he]
  refine ⟨rfl, rfl, ?_, ?_, rfl, rfl, ?_, ?_, ?_, ?_, ?_, ?_, ?_, ?_, ?_⟩
  · intro x y hx1 hx2 hy1 hy2
    exact ⟨copy_rows_at_in _ td.chbuf (resize_clamped_width nw) td.con_width
        (copy_width td (resize_clamped_width nw)) (by omega) hwmW
        (copy_height td (resize_clamped_height nh)).toNat x y hx1 hx2 hy1 (by omega),
      copy_rows_at_in _ td.grbuf (resize_clamped_width nw) td.con_width
        (copy_width td (resize_clamped_width nw)) (by omega) hwmW
        (copy_height td (resize_clamped_height nh)).toNat x y hx1 hx2 hy1 (by omega)⟩
  · intro x y hx1 hx2 hy1 hy2 hout
    have hcase : copy_width td (resize_clamped_width nw) ≤ x ∨
        ((copy_height td (resize_clamped_height nh)).toNat : Int) ≤ y := by omega
    have hmul1 : 0 ≤ y * resize_clamped_width nw :=
      mul_nonneg hy1 (by omega)
    have hexp : (y + 1) * resize_clamped_width nw =
        y * resize_clamped_width nw + resize_clamped_width nw := by ring
    have hmul2 : (y + 1) * resize_clamped_width nw ≤
        resize_clamped_height nh * resize_clamped_width nw :=
      mul_le_mul_of_nonneg_right (by omega) (by omega)
    have hcomm : resize_clamped_height nh * resize_clamped_width nw =
        resize_clamped_width nw * resize_clamped_height nh := by ring
    refine ⟨?_, ?_⟩
    · show copy_rows
        (memsetN ch0 0 (resize_clamped_width nw * resize_clamped_height nh) 32)
        td.chbuf (resize_clamped_width nw) td.con_width
        (copy_width td (resize_clamped_width nw))
        (copy_height td (resize_clamped_height nh)).toNat
        (y * resize_clamped_width nw + x) = 32
      rw [copy_rows_at_out _ td.chbuf (resize_clamped_width nw) td.con_width
          (copy_width td (resize_clamped_width nw)) (by omega) hwmW
          (copy_height td (resize_clamped_height nh)).toNat x y hx1 hx2 hy1 hcase]
      simp only [memsetN]
      rw [if_pos (⟨by omega, by omega⟩ : _ ∧ _)]
    · show copy_rows
        (memsetN gr0 0 (resize_clamped_width nw * resize_clamped_height nh) 0)
        td.grbuf (resize_clamped_width nw) td.con_width
        (copy_width td (resize_clamped_width nw))
        (copy_height td (resize_clamped_height nh)).toNat
        (y * resize_clamped_width nw + x) = 0
      rw [copy_rows_at_out _ td.grbuf (resize_clamped_width nw) td.con_width
          (copy_width td (resize_clamped_width nw)) (by omega) hwmW
          (copy_height td (resize_clamped_height nh)).toNat x y hx1 hx2 hy1 hcase]
      simp only [memsetN]
      rw [if_pos (⟨by omega, by omega⟩ : _ ∧ _)]
  · dsimp only
    intro hlt
    rw [if_neg (by omega)]
  · dsimp only
    intro hge
    rw [if_pos hge]
  · dsimp only
    intro hlt
    rw [if_neg (by omega)]
  · dsimp only
    intro hge
    rw [if_pos hge]
  · dsimp only
    split_ifs <;> omega
  · dsimp only
    split_ifs <;> omega
  · dsimp only
    split_ifs <;> omega
  · dsimp only
    split_ifs <;> omega
  · intro y hy1 hy2
    show memsetB td.must_refresh_line_buf 0 (resize_clamped_height nh) true y = true
    simp only [memsetB]
    rw [if_pos (⟨hy1, by omega⟩ : _ ∧ _)]

theorem resize_buffers_spec_witness :
    (vt102_generic_backend_resize_buffers dch_demo_state 12 3 zeroBuf zeroBuf).con_width = 12 ∧
    (vt102_generic_backend_resize_buffers dch_demo_state 12 3 zeroBuf zeroBuf).con_height = 3 ∧
    (vt102_generic_backend_resize_buffers dch_demo_state 12 3 zeroBuf zeroBuf).chbuf 13 =
      dch_demo_state.chbuf 11 ∧
    (vt102_generic_backend_resize_buffers dch_demo_state 12 3 zeroBuf zeroBuf).chbuf 34 = 32 ∧
    (vt102_generic_backend_resize_buffers dch_demo_state 12 3 zeroBuf zeroBuf).margin_bottom = 2 ∧
    (vt102_generic_backend_resize_buffers dch_demo_state 12 3 zeroBuf zeroBuf).must_refresh_line_buf 2 =
      true ∧
    (vt102_generic_backend_resize_buffers rev_index_demo_state 10 2 zeroBuf zeroBuf).cursor_x =
      rev_index_demo_state.cursor_x ∧
    (vt102_generic_backend_resize_buffers rev_index_demo_state 10 2 zeroBuf zeroBuf).cursor_y =
      1 := by
  have h := resize_buffers_spec dch_demo_state 12 3 zeroBuf zeroBuf
    (by decide) (by decide) (by decide) (by decide)
  have h2 := resize_buffers_spec rev_index_demo_state 10 2 zeroBuf zeroBuf
    (by decide) (by decide) (by decide) (by decide)
  obtain ⟨hcw, hch, hin, hout, hmt, hmb, _, _, _, _, _, _, _, _, hdirty⟩ := h
  obtain ⟨_, _, _, _, _, _, hxkeep, _, _, hyedge, _, _, _, _, _⟩ := h2
  refine ⟨hcw, hch, ?_, ?_, ?_, hdirty 2 (by decide) (by decide),
    hxkeep (by decide), ?_⟩
  · have := (hin 1 1 (by decide) (by decide) (by decide) (by decide)).1
    simpa using this
  · have := (hout 10 2 (by decide) (by decide) (by decide) (by decide) (by decide)).1
    simpa using this
  · simpa using hmb
  · have := hyedge (by decide)
    simpa using this

end VT102
